import Mathlib

/-!
Verification of the polls application (a Django tutorial-style app).
The repository ships `polls/tests.py` and `polls/urls.py`; the model layer
(`polls/models.py`) and the view layer (`polls/views.py`) are exercised by the
tests but their code is not in the repository snapshot, so those parts are
modelled from the specification, with every ambiguity resolved the way the
tests force.  Timestamps are modelled as integers counting seconds; the
routing layer is modelled over `List Char` paths.
-/

namespace Polls

/-- One day, in seconds, matching datetime.timedelta(days=1). -/
def oneDay : Int := 86400

/-- Modelled from the spec: the Question model (polls/models.py) is not in the
repository snapshot; only its tests are.  Spec section 4.2 leaves the recency
threshold ambiguous between 1 day and 7 days; the tests in polls/tests.py force
a 7-day window whose lower bound is exclusive (a question exactly 7 days old is
not recent, one 5 days old is).  `now` (which the real method obtains from
timezone.now()) is passed explicitly, and timestamps are integer seconds. -/
def was_published_recently (now pub_date : Int) : Bool :=
  decide (now - 7 * oneDay < pub_date ∧ pub_date ≤ now)

/-- Claim C1 (counterexample): the claimed 1-day window is refuted by the code.
A pub_date exactly 5 days in the past is outside (now − 1 day, now], yet
was_published_recently returns true there, as the recent-question test in
polls/tests.py demands. -/
theorem recency_window_one_day_false :
    ¬ (was_published_recently 0 (-432000) = true ↔
        (0 - oneDay < -432000 ∧ -432000 ≤ 0)) := by
  decide

/-- Claim C1 (amended): for every pub_date, was_published_recently returns true
if and only if pub_date lies in the half-open range (now − 7 days, now]; in
particular it returns false whenever pub_date is in the future or 7 or more
days in the past. -/
theorem recency_window (now pub_date : Int) :
    was_published_recently now pub_date = true ↔
      (now - 7 * oneDay < pub_date ∧ pub_date ≤ now) := by
  simp [was_published_recently]

/-- Claim C2: for every pub_date strictly after the current time, with no bound
on how far in the future, was_published_recently returns false. -/
theorem future_never_recent (now pub_date : Int) (h : now < pub_date) :
    was_published_recently now pub_date = false := by
  simp only [was_published_recently, decide_eq_false_iff_not, not_and, not_le]
  intro _
  exact h

/-- Claim C2 witness at a pub_date 30 days in the future. -/
theorem future_never_recent_witness :
    (0 : Int) < 30 * 86400 ∧ was_published_recently 0 (30 * 86400) = false :=
  ⟨by decide, future_never_recent 0 (30 * 86400) (by decide)⟩

/-- Claim C3: a pub_date exactly 7 days before the current time is not recent,
and a pub_date exactly 5 days before the current time is recent, as the
old-question and recent-question tests in polls/tests.py assert. -/
theorem boundary_seven_and_five_days (now : Int) :
    was_published_recently now (now - 7 * oneDay) = false ∧
      was_published_recently now (now - 5 * oneDay) = true := by
  constructor
  · simp only [was_published_recently, decide_eq_false_iff_not, not_and, not_le]
    intro h
    exact absurd h (by omega)
  · simp only [was_published_recently, decide_eq_true_eq, oneDay]
    omega

/-- A persisted Question record: primary key, text field, publish timestamp. -/
structure Question where
  id : Nat
  question_text : String
  pub_date : Int
deriving DecidableEq

/-- A Choice belongs to one Question and accumulates a vote count. -/
structure Choice where
  id : Nat
  question_id : Nat
  choice_text : String
  votes : Nat
deriving DecidableEq

/-- Descending publish-date order: `a` precedes `b` when `b` is no newer. -/
def byPubDateDesc (a b : Question) : Prop := b.pub_date ≤ a.pub_date

instance : DecidableRel byPubDateDesc :=
  fun a b => inferInstanceAs (Decidable (b.pub_date ≤ a.pub_date))

instance : IsTotal Question byPubDateDesc :=
  ⟨fun a b => le_total b.pub_date a.pub_date⟩

instance : IsTrans Question byPubDateDesc :=
  ⟨fun _ _ _ h₁ h₂ => le_trans h₂ h₁⟩

/-- Modelled from the spec: the visibility filter of section 4.1 (the view code
in polls/views.py is not in the repository snapshot).  Given the current time
`now`, keep the Questions with pub_date ≤ now. -/
def publishedFilter (now : Int) (qs : List Question) : List Question :=
  qs.filter (fun q => decide (q.pub_date ≤ now))

/-- Modelled from the spec: the index view query (polls/views.py is not in the
repository snapshot).  Per spec section 4.1, select all Questions with
pub_date ≤ now, ordered descending by pub_date. -/
def latest_question_list (now : Int) (qs : List Question) : List Question :=
  List.insertionSort byPubDateDesc (publishedFilter now qs)

/-- Claim C4: the index view question list contains exactly the stored
Questions whose pub_date is at most the current time, and it is ordered
descending by pub_date (most recent first). -/
theorem index_list_spec (now : Int) (qs : List Question) :
    (∀ q, q ∈ latest_question_list now qs ↔ (q ∈ qs ∧ q.pub_date ≤ now)) ∧
      List.Sorted byPubDateDesc (latest_question_list now qs) := by
  constructor
  · intro q
    unfold latest_question_list publishedFilter
    rw [List.mem_insertionSort, List.mem_filter]
    simp
  · exact List.sorted_insertionSort byPubDateDesc _

/-- An HTTP response: a rendered 200 page, a 404, or a 302 redirect. -/
inductive Response where
  | ok (body : String)
  | notFound
  | redirect (location : String)
deriving DecidableEq

/-- The HTTP status code of a response. -/
def statusCode : Response → Nat
  | Response.ok _ => 200
  | Response.notFound => 404
  | Response.redirect _ => 302

/-- Primary-key lookup of a Question among the stored records. -/
def findQuestion (qs : List Question) (qid : Nat) : Option Question :=
  qs.find? (fun q => decide (q.id = qid))

/-- The rendered detail page for a Question; its body carries the text. -/
def renderDetail (q : Question) : String :=
  ("<h1>") ++ q.question_text ++ ("</h1>")

/-- The body `body` contains the text `text` as a substring. -/
def containsText (body text : String) : Prop :=
  ∃ pre post : String, body = pre ++ text ++ post

/-- Modelled from the spec: the detail view (polls/views.py is not in the
repository snapshot).  Per spec sections 4.1, 4.3 and 7, it renders the
Question when it exists and is published (pub_date ≤ now), and signals
not-found both when the id does not exist and when the Question is
future-dated. -/
def detail (now : Int) (qs : List Question) (qid : Nat) : Response :=
  match findQuestion qs qid with
  | none => Response.notFound
  | some q => if q.pub_date ≤ now then Response.ok (renderDetail q) else Response.notFound

/-- The rendered results page: the question text with the tallies per Choice. -/
def renderResults (q : Question) (cs : List Choice) : String :=
  q.question_text ++
    String.join ((cs.filter (fun c => decide (c.question_id = q.id))).map
      (fun c => c.choice_text ++ (" -- ") ++ toString c.votes))

/-- Modelled from the spec: the results view (polls/views.py is not in the
repository snapshot).  Same existence and visibility contract as the detail
view; renders vote tallies per Choice. -/
def results (now : Int) (qs : List Question) (cs : List Choice) (qid : Nat) : Response :=
  match findQuestion qs qid with
  | none => Response.notFound
  | some q => if q.pub_date ≤ now then Response.ok (renderResults q cs) else Response.notFound

/-- Claim C5: for an existing Question, the detail view returns HTTP 404 when
its pub_date is in the future, and HTTP 200 with a body containing its
question_text when its pub_date is in the past. -/
theorem detail_visibility (now : Int) (qs : List Question) (qid : Nat) (q : Question)
    (hq : findQuestion qs qid = some q) :
    (now < q.pub_date →
        detail now qs qid = Response.notFound ∧ statusCode (detail now qs qid) = 404) ∧
      (q.pub_date < now →
        detail now qs qid = Response.ok (renderDetail q) ∧
          statusCode (detail now qs qid) = 200 ∧
          containsText (renderDetail q) q.question_text) := by
  constructor
  · intro hfut
    have hn : ¬ q.pub_date ≤ now := not_le.mpr hfut
    simp [detail, hq, hn, statusCode]
  · intro hpast
    have hle : q.pub_date ≤ now := le_of_lt hpast
    refine ⟨by simp [detail, hq, hle], by simp [detail, hq, hle, statusCode], ?_⟩
    exact ⟨"<h1>", "</h1>", rfl⟩

/-- Claim C5 witness: a store with a past Question (id 1, 100 seconds old) and
a future Question (id 2, publishing 100 seconds from now), probed at both. -/
theorem detail_visibility_witness :
    (detail 0 [(⟨1, "Past question.", -100⟩ : Question), ⟨2, "Future question.", 100⟩] 1 =
        Response.ok (renderDetail ⟨1, "Past question.", -100⟩) ∧
      statusCode (detail 0 [(⟨1, "Past question.", -100⟩ : Question),
        ⟨2, "Future question.", 100⟩] 1) = 200 ∧
      containsText (renderDetail ⟨1, "Past question.", -100⟩) ("Past question.")) ∧
    (detail 0 [(⟨1, "Past question.", -100⟩ : Question), ⟨2, "Future question.", 100⟩] 2 =
        Response.notFound ∧
      statusCode (detail 0 [(⟨1, "Past question.", -100⟩ : Question),
        ⟨2, "Future question.", 100⟩] 2) = 404) :=
  ⟨(detail_visibility 0 [⟨1, "Past question.", -100⟩, ⟨2, "Future question.", 100⟩] 1
      ⟨1, "Past question.", -100⟩ rfl).2 (by decide),
   (detail_visibility 0 [⟨1, "Past question.", -100⟩, ⟨2, "Future question.", 100⟩] 2
      ⟨2, "Future question.", 100⟩ rfl).1 (by decide)⟩

/-- Claim C6: on the detail and results views, a nonexistent question id and a
future-dated (not yet published) question id produce the very same not-found
response, so nothing surfaced to the client distinguishes the two causes. -/
theorem notfound_indistinguishable (now : Int) (qs : List Question) (cs : List Choice)
    (missingId existingId : Nat) (q : Question)
    (hmiss : findQuestion qs missingId = none)
    (hhit : findQuestion qs existingId = some q)
    (hfut : now < q.pub_date) :
    detail now qs missingId = detail now qs existingId ∧
      detail now qs missingId = Response.notFound ∧
      results now qs cs missingId = results now qs cs existingId ∧
      results now qs cs missingId = Response.notFound ∧
      statusCode (detail now qs existingId) = 404 ∧
      statusCode (results now qs cs existingId) = 404 := by
  have hn : ¬ q.pub_date ≤ now := not_le.mpr hfut
  refine ⟨?_, ?_, ?_, ?_, ?_, ?_⟩ <;>
    simp [detail, results, hmiss, hhit, hn, statusCode]

/-- Claim C6 witness: one stored future Question (id 1), probed at the
nonexistent id 2 and at the unpublished id 1. -/
theorem notfound_indistinguishable_witness :
    detail 0 [(⟨1, "Future question.", 100⟩ : Question)] 2 =
        detail 0 [(⟨1, "Future question.", 100⟩ : Question)] 1 ∧
      detail 0 [(⟨1, "Future question.", 100⟩ : Question)] 2 = Response.notFound ∧
      results 0 [(⟨1, "Future question.", 100⟩ : Question)] [] 2 =
        results 0 [(⟨1, "Future question.", 100⟩ : Question)] [] 1 ∧
      results 0 [(⟨1, "Future question.", 100⟩ : Question)] [] 2 = Response.notFound ∧
      statusCode (detail 0 [(⟨1, "Future question.", 100⟩ : Question)] 1) = 404 ∧
      statusCode (results 0 [(⟨1, "Future question.", 100⟩ : Question)] [] 1) = 404 :=
  notfound_indistinguishable 0 [⟨1, "Future question.", 100⟩] [] 2 1
    ⟨1, "Future question.", 100⟩ rfl rfl (by decide)

/-- The URL of the results page for a question, the redirect target of a
successful vote. -/
def resultsUrl (qid : Nat) : String :=
  ("/polls/") ++ toString qid ++ ("/results/")

/-- A Choice with its vote counter incremented by one. -/
def bumpVotes (c : Choice) : Choice :=
  ⟨c.id, c.question_id, c.choice_text, c.votes + 1⟩

/-- Lookup of a Choice of the given question by choice id. -/
def findChoice (cs : List Choice) (qid cid : Nat) : Option Choice :=
  cs.find? (fun c => decide (c.question_id = qid ∧ c.id = cid))

/-- The detail page re-rendered with the inline error message shown when no
valid choice was selected. -/
def renderDetailError (q : Question) : String :=
  renderDetail q ++ ("You did not select a choice.")

/-- Modelled from the spec: the vote view (polls/views.py is not in the
repository snapshot).  Per spec sections 4.3 and 7: on a valid choice
selection it increments that Choice's vote counter and redirects to the
results page; when no choice was selected or the choice id is invalid it
re-renders the detail page with an inline error message and does not change
any counter.  It returns the response together with the updated store. -/
def vote (qs : List Question) (cs : List Choice) (qid : Nat) (sel : Option Nat) :
    Response × List Choice :=
  match findQuestion qs qid with
  | none => (Response.notFound, cs)
  | some q =>
    match sel with
    | none => (Response.ok (renderDetailError q), cs)
    | some cid =>
      match findChoice cs qid cid with
      | none => (Response.ok (renderDetailError q), cs)
      | some _ =>
        (Response.redirect (resultsUrl qid),
          cs.map (fun c => if c.question_id = qid ∧ c.id = cid then bumpVotes c else c))

/-- Claim C8: on a vote request for an existing question, a valid choice
selection increments exactly that Choice's vote counter and yields an HTTP 302
redirect to the results view; with no selection, or with an invalid choice id,
the detail page is re-rendered with an inline error at HTTP 200, no redirect
happens, and no counter changes. -/
theorem vote_behavior (qs : List Question) (cs : List Choice) (qid : Nat) (q : Question)
    (hq : findQuestion qs qid = some q) :
    (∀ cid c, findChoice cs qid cid = some c →
        (vote qs cs qid (some cid)).1 = Response.redirect (resultsUrl qid) ∧
          statusCode (vote qs cs qid (some cid)).1 = 302 ∧
          (vote qs cs qid (some cid)).2 =
            cs.map (fun x => if x.question_id = qid ∧ x.id = cid then bumpVotes x else x)) ∧
      ((vote qs cs qid none).1 = Response.ok (renderDetailError q) ∧
        statusCode (vote qs cs qid none).1 = 200 ∧
        (vote qs cs qid none).2 = cs ∧
        ∀ loc, (vote qs cs qid none).1 ≠ Response.redirect loc) ∧
      (∀ cid, findChoice cs qid cid = none →
        (vote qs cs qid (some cid)).1 = Response.ok (renderDetailError q) ∧
          statusCode (vote qs cs qid (some cid)).1 = 200 ∧
          (vote qs cs qid (some cid)).2 = cs ∧
          ∀ loc, (vote qs cs qid (some cid)).1 ≠ Response.redirect loc) := by
  refine ⟨?_, ?_, ?_⟩
  · intro cid c hc
    simp [vote, hq, hc, statusCode]
  · simp [vote, hq, statusCode]
  · intro cid hc
    simp [vote, hq, hc, statusCode]

/-- Claim C8 witness: question 1 with choices 1 and 2; a valid vote for choice
2 redirects and bumps only that counter, a missing and an invalid selection
re-render with the error and leave the store unchanged. -/
theorem vote_behavior_witness :
    ((vote [(⟨1, "Q", -100⟩ : Question)]
        [(⟨1, 1, "A", 0⟩ : Choice), ⟨2, 1, "B", 3⟩] 1 (some 2)).1 =
          Response.redirect (resultsUrl 1) ∧
      (vote [(⟨1, "Q", -100⟩ : Question)]
        [(⟨1, 1, "A", 0⟩ : Choice), ⟨2, 1, "B", 3⟩] 1 (some 2)).2 =
          [(⟨1, 1, "A", 0⟩ : Choice), ⟨2, 1, "B", 4⟩]) ∧
    ((vote [(⟨1, "Q", -100⟩ : Question)]
        [(⟨1, 1, "A", 0⟩ : Choice), ⟨2, 1, "B", 3⟩] 1 none).1 =
          Response.ok (renderDetailError ⟨1, "Q", -100⟩) ∧
      (vote [(⟨1, "Q", -100⟩ : Question)]
        [(⟨1, 1, "A", 0⟩ : Choice), ⟨2, 1, "B", 3⟩] 1 none).2 =
          [(⟨1, 1, "A", 0⟩ : Choice), ⟨2, 1, "B", 3⟩]) ∧
    ((vote [(⟨1, "Q", -100⟩ : Question)]
        [(⟨1, 1, "A", 0⟩ : Choice), ⟨2, 1, "B", 3⟩] 1 (some 9)).1 =
          Response.ok (renderDetailError ⟨1, "Q", -100⟩) ∧
      (vote [(⟨1, "Q", -100⟩ : Question)]
        [(⟨1, 1, "A", 0⟩ : Choice), ⟨2, 1, "B", 3⟩] 1 (some 9)).2 =
          [(⟨1, 1, "A", 0⟩ : Choice), ⟨2, 1, "B", 3⟩]) := by
  have h := vote_behavior [⟨1, "Q", -100⟩] [⟨1, 1, "A", 0⟩, ⟨2, 1, "B", 3⟩] 1
    ⟨1, "Q", -100⟩ rfl
  refine ⟨⟨(h.1 2 ⟨2, 1, "B", 3⟩ rfl).1, ?_⟩, ⟨h.2.1.1, h.2.1.2.2.1⟩,
    ⟨(h.2.2 9 rfl).1, (h.2.2 9 rfl).2.2.1⟩⟩
  rw [(h.1 2 ⟨2, 1, "B", 3⟩ rfl).2.2]
  decide

/-- The four view handlers that polls/urls.py names. -/
inductive Handler where
  | index
  | detail
  | results
  | vote
deriving DecidableEq

/-- Semantics of an anchored regex of the shape (?P<question_id>[0-9]+) followed
by a literal tail: the whole path must be a non-empty digit run followed by
exactly that tail, and the digit run is the captured question_id.  Because the
tails used in polls/urls.py all begin with a slash, which is not a digit, the
backtracking regex can only succeed by taking the maximal digit run, which is
what this function computes. -/
def matchIdRoute (tail path : List Char) : Option (List Char) :=
  if path.takeWhile Char.isDigit ≠ [] ∧
      path.drop (path.takeWhile Char.isDigit).length = tail
  then some (path.takeWhile Char.isDigit) else none

/-- A URL pattern of polls/urls.py: either the anchored empty regex, or a
captured digit run followed by a literal tail. -/
inductive RoutePat where
  | empty
  | idThen (tail : List Char)
deriving DecidableEq

/-- Run a pattern on a path: none on no match, otherwise the optional capture. -/
def RoutePat.run : RoutePat → List Char → Option (Option (List Char))
  | RoutePat.empty, path => if path = [] then some none else none
  | RoutePat.idThen tail, path => Option.map some (matchIdRoute tail path)

/-- One entry of urlpatterns: a pattern, a view handler, and a route name. -/
structure UrlEntry where
  pat : RoutePat
  handler : Handler
  name : String
deriving DecidableEq

/-- The literal tail of the detail route after the captured digits. -/
def detailTail : List Char := ['/']

/-- The literal tail of the results route after the captured digits. -/
def resultsTail : List Char := ['/', 'r', 'e', 's', 'u', 'l', 't', 's', '/']

/-- The literal tail of the vote route after the captured digits. -/
def voteTail : List Char := ['/', 'v', 'o', 't', 'e', '/']

/-- The routing table of polls/urls.py, in source order. -/
def urlpatterns : List UrlEntry :=
  [⟨RoutePat.empty, Handler.index, "index"⟩,
   ⟨RoutePat.idThen detailTail, Handler.detail, "detail"⟩,
   ⟨RoutePat.idThen resultsTail, Handler.results, "results"⟩,
   ⟨RoutePat.idThen voteTail, Handler.vote, "vote"⟩]

/-- First-match dispatch over a list of url entries. -/
def resolveFrom : List UrlEntry → List Char → Option (Handler × Option (List Char))
  | [], _ => none
  | e :: rest, path =>
    match RoutePat.run e.pat path with
    | some cap => some (e.handler, cap)
    | none => resolveFrom rest path

/-- Dispatch a request path through urlpatterns. -/
def resolve (path : List Char) : Option (Handler × Option (List Char)) :=
  resolveFrom urlpatterns path

/-- A non-empty string of decimal digits, what [0-9]+ accepts. -/
def isDigitString (d : List Char) : Prop :=
  d ≠ [] ∧ ∀ c ∈ d, c.isDigit = true

instance (d : List Char) : Decidable (isDigitString d) :=
  inferInstanceAs (Decidable (d ≠ [] ∧ ∀ c ∈ d, c.isDigit = true))

lemma takeWhile_append_drop (p : Char → Bool) (l : List Char) :
    l.takeWhile p ++ l.drop (l.takeWhile p).length = l := by
  induction l with
  | nil => rfl
  | cons a t ih =>
    by_cases h : p a
    · simp [List.takeWhile_cons, h, ih]
    · simp [List.takeWhile_cons, h]

lemma matchIdRoute_some_iff (tail path d : List Char)
    (htail : ∃ rest, tail = ('/') :: rest) :
    matchIdRoute tail path = some d ↔ (isDigitString d ∧ path = d ++ tail) := by
  constructor
  · intro h
    unfold matchIdRoute at h
    by_cases hc : (path.takeWhile Char.isDigit ≠ [] ∧
        path.drop (path.takeWhile Char.isDigit).length = tail)
    · rw [if_pos hc] at h
      injection h with hd
      refine ⟨⟨hd ▸ hc.1, ?_⟩, ?_⟩
      · intro c hcmem
        exact List.mem_takeWhile_imp (hd ▸ hcmem)
      · have := takeWhile_append_drop Char.isDigit path
        rw [hc.2] at this
        rw [← hd]
        exact this.symm
    · rw [if_neg hc] at h
      exact absurd h (by simp)
  · rintro ⟨⟨hne, hdig⟩, hpath⟩
    obtain ⟨rest, hrest⟩ := htail
    have hslash : Char.isDigit ('/') = false := by decide
    have htw : path.takeWhile Char.isDigit = d := by
      rw [hpath, List.takeWhile_append_of_pos hdig, hrest, List.takeWhile_cons, hslash]
      simp
    unfold matchIdRoute
    rw [htw]
    rw [if_pos ⟨hne, by rw [hpath, List.drop_left]⟩]

lemma matchIdRoute_functional (t₁ t₂ path d₁ d₂ : List Char)
    (h₁ : matchIdRoute t₁ path = some d₁) (h₂ : matchIdRoute t₂ path = some d₂) :
    t₁ = t₂ ∧ d₁ = d₂ := by
  unfold matchIdRoute at h₁ h₂
  by_cases hc₁ : (path.takeWhile Char.isDigit ≠ [] ∧
      path.drop (path.takeWhile Char.isDigit).length = t₁)
  · rw [if_pos hc₁] at h₁
    by_cases hc₂ : (path.takeWhile Char.isDigit ≠ [] ∧
        path.drop (path.takeWhile Char.isDigit).length = t₂)
    · rw [if_pos hc₂] at h₂
      injection h₁ with e₁
      injection h₂ with e₂
      exact ⟨hc₁.2.symm.trans hc₂.2, e₁.symm.trans e₂⟩
    · rw [if_neg hc₂] at h₂
      exact absurd h₂ (by simp)
  · rw [if_neg hc₁] at h₁
    exact absurd h₁ (by simp)

lemma matchIdRoute_nil (tail : List Char) : matchIdRoute tail [] = none := by
  simp [matchIdRoute]

lemma resolve_eq (path : List Char) : resolve path =
    if path = [] then some (Handler.index, none)
    else
      match matchIdRoute detailTail path with
      | some d => some (Handler.detail, some d)
      | none =>
        match matchIdRoute resultsTail path with
        | some d => some (Handler.results, some d)
        | none =>
          match matchIdRoute voteTail path with
          | some d => some (Handler.vote, some d)
          | none => none := by
  by_cases hp : path = []
  · subst hp
    rfl
  · rcases hd : matchIdRoute detailTail path with _ | d <;>
      rcases hr : matchIdRoute resultsTail path with _ | r <;>
        rcases hv : matchIdRoute voteTail path with _ | v <;>
          simp [resolve, urlpatterns, resolveFrom, RoutePat.run, hp, hd, hr, hv]

lemma resolve_detail_of_digits (d : List Char) (hd : isDigitString d) :
    resolve (d ++ detailTail) = some (Handler.detail, some d) := by
  have hmd : matchIdRoute detailTail (d ++ detailTail) = some d :=
    (matchIdRoute_some_iff detailTail (d ++ detailTail) d ⟨[], rfl⟩).mpr ⟨hd, rfl⟩
  have hp : d ++ detailTail ≠ [] := by simp [detailTail]
  rw [resolve_eq, if_neg hp, hmd]

lemma resolve_results_of_digits (d : List Char) (hd : isDigitString d) :
    resolve (d ++ resultsTail) = some (Handler.results, some d) := by
  have hmr : matchIdRoute resultsTail (d ++ resultsTail) = some d :=
    (matchIdRoute_some_iff resultsTail (d ++ resultsTail) d
      ⟨['r', 'e', 's', 'u', 'l', 't', 's', '/'], rfl⟩).mpr ⟨hd, rfl⟩
  have hmd : matchIdRoute detailTail (d ++ resultsTail) = none := by
    rcases hx : matchIdRoute detailTail (d ++ resultsTail) with _ | d₁
    · rfl
    · exact absurd (matchIdRoute_functional detailTail resultsTail _ d₁ d hx hmr).1
        (by decide)
  have hp : d ++ resultsTail ≠ [] := by simp [resultsTail]
  rw [resolve_eq, if_neg hp, hmd, hmr]

lemma resolve_vote_of_digits (d : List Char) (hd : isDigitString d) :
    resolve (d ++ voteTail) = some (Handler.vote, some d) := by
  have hmv : matchIdRoute voteTail (d ++ voteTail) = some d :=
    (matchIdRoute_some_iff voteTail (d ++ voteTail) d
      ⟨['v', 'o', 't', 'e', '/'], rfl⟩).mpr ⟨hd, rfl⟩
  have hmd : matchIdRoute detailTail (d ++ voteTail) = none := by
    rcases hx : matchIdRoute detailTail (d ++ voteTail) with _ | d₁
    · rfl
    · exact absurd (matchIdRoute_functional detailTail voteTail _ d₁ d hx hmv).1
        (by decide)
  have hmr : matchIdRoute resultsTail (d ++ voteTail) = none := by
    rcases hx : matchIdRoute resultsTail (d ++ voteTail) with _ | d₁
    · rfl
    · exact absurd (matchIdRoute_functional resultsTail voteTail _ d₁ d hx hmv).1
        (by decide)
  have hp : d ++ voteTail ≠ [] := by simp [voteTail]
  rw [resolve_eq, if_neg hp, hmd, hmr, hmv]

lemma run_empty_ne_none (path : List Char)
    (h : RoutePat.run RoutePat.empty path ≠ none) : path = [] := by
  by_contra hp
  simp [RoutePat.run, hp] at h

lemma run_idThen_ne_none (tail path : List Char)
    (h : RoutePat.run (RoutePat.idThen tail) path ≠ none) :
    ∃ d, matchIdRoute tail path = some d := by
  rcases hd : matchIdRoute tail path with _ | d
  · simp [RoutePat.run, hd] at h
  · exact ⟨d, rfl⟩

/-- Claim C7: the routing table of polls/urls.py has exactly four patterns,
named index, detail, results and vote in that order, and dispatch maps the
empty path to the index handler, a digit string followed by a single slash to
the detail handler, a digit string followed by /results/ to the results
handler, and a digit string followed by /vote/ to the vote handler, in each
case capturing exactly the digit string as question_id. -/
theorem routing_table (path d : List Char) :
    urlpatterns.length = 4 ∧
    urlpatterns.map UrlEntry.name = ["index", "detail", "results", "vote"] ∧
    urlpatterns.map UrlEntry.handler =
      [Handler.index, Handler.detail, Handler.results, Handler.vote] ∧
    (resolve path = some (Handler.index, none) ↔ path = []) ∧
    (resolve path = some (Handler.detail, some d) ↔
      (isDigitString d ∧ path = d ++ detailTail)) ∧
    (resolve path = some (Handler.results, some d) ↔
      (isDigitString d ∧ path = d ++ resultsTail)) ∧
    (resolve path = some (Handler.vote, some d) ↔
      (isDigitString d ∧ path = d ++ voteTail)) := by
  refine ⟨rfl, rfl, rfl, ?_, ?_, ?_, ?_⟩
  · constructor
    · intro h
      by_cases hp : path = []
      · exact hp
      · rw [resolve_eq, if_neg hp] at h
        rcases hd : matchIdRoute detailTail path with _ | d'
        · rcases hr : matchIdRoute resultsTail path with _ | r'
          · rcases hv : matchIdRoute voteTail path with _ | v'
            · simp [hd, hr, hv] at h
            · simp [hd, hr, hv] at h
          · simp [hd, hr] at h
        · simp [hd] at h
    · intro hp
      subst hp
      rfl
  · constructor
    · intro h
      by_cases hp : path = []
      · subst hp
        have h0 : resolve [] = some (Handler.index, none) := rfl
        rw [h0] at h
        simp at h
      · rw [resolve_eq, if_neg hp] at h
        rcases hd : matchIdRoute detailTail path with _ | d'
        · rcases hr : matchIdRoute resultsTail path with _ | r'
          · rcases hv : matchIdRoute voteTail path with _ | v'
            · simp [hd, hr, hv] at h
            · simp [hd, hr, hv] at h
          · simp [hd, hr] at h
        · simp [hd] at h
          subst h
          exact (matchIdRoute_some_iff detailTail path d' ⟨[], rfl⟩).mp hd
    · rintro ⟨hds, hpath⟩
      subst hpath
      exact resolve_detail_of_digits d hds
  · constructor
    · intro h
      by_cases hp : path = []
      · subst hp
        have h0 : resolve [] = some (Handler.index, none) := rfl
        rw [h0] at h
        simp at h
      · rw [resolve_eq, if_neg hp] at h
        rcases hd : matchIdRoute detailTail path with _ | d'
        · rcases hr : matchIdRoute resultsTail path with _ | r'
          · rcases hv : matchIdRoute voteTail path with _ | v'
            · simp [hd, hr, hv] at h
            · simp [hd, hr, hv] at h
          · simp [hd, hr] at h
            subst h
            exact (matchIdRoute_some_iff resultsTail path r'
              ⟨['r', 'e', 's', 'u', 'l', 't', 's', '/'], rfl⟩).mp hr
        · simp [hd] at h
    · rintro ⟨hds, hpath⟩
      subst hpath
      exact resolve_results_of_digits d hds
  · constructor
    · intro h
      by_cases hp : path = []
      · subst hp
        have h0 : resolve [] = some (Handler.index, none) := rfl
        rw [h0] at h
        simp at h
      · rw [resolve_eq, if_neg hp] at h
        rcases hd : matchIdRoute detailTail path with _ | d'
        · rcases hr : matchIdRoute resultsTail path with _ | r'
          · rcases hv : matchIdRoute voteTail path with _ | v'
            · simp [hd, hr, hv] at h
            · simp [hd, hr, hv] at h
              subst h
              exact (matchIdRoute_some_iff voteTail path v'
                ⟨['v', 'o', 't', 'e', '/'], rfl⟩).mp hv
          · simp [hd, hr] at h
        · simp [hd] at h
    · rintro ⟨hds, hpath⟩
      subst hpath
      exact resolve_vote_of_digits d hds

/-- Claim C9: the four anchored patterns are pairwise disjoint: a URL path
matches at most one entry of urlpatterns, so dispatch is a deterministic
partial function from paths to handlers. -/
theorem routes_disjoint (path : List Char) (e₁ e₂ : UrlEntry)
    (h₁ : e₁ ∈ urlpatterns) (h₂ : e₂ ∈ urlpatterns)
    (m₁ : RoutePat.run e₁.pat path ≠ none)
    (m₂ : RoutePat.run e₂.pat path ≠ none) :
    e₁ = e₂ := by
  have hcases : ∀ e : UrlEntry, e ∈ urlpatterns →
      e = ⟨RoutePat.empty, Handler.index, "index"⟩ ∨
      e = ⟨RoutePat.idThen detailTail, Handler.detail, "detail"⟩ ∨
      e = ⟨RoutePat.idThen resultsTail, Handler.results, "results"⟩ ∨
      e = ⟨RoutePat.idThen voteTail, Handler.vote, "vote"⟩ := by
    intro e he
    simpa [urlpatterns] using he
  rcases hcases e₁ h₁ with rfl | rfl | rfl | rfl <;>
    rcases hcases e₂ h₂ with rfl | rfl | rfl | rfl <;>
    first
      | rfl
      | (have hp := run_empty_ne_none path m₁
         subst hp
         obtain ⟨dw, hdm⟩ := run_idThen_ne_none _ _ m₂
         rw [matchIdRoute_nil] at hdm
         exact absurd hdm (by simp))
      | (have hp := run_empty_ne_none path m₂
         subst hp
         obtain ⟨dw, hdm⟩ := run_idThen_ne_none _ _ m₁
         rw [matchIdRoute_nil] at hdm
         exact absurd hdm (by simp))
      | (obtain ⟨d₁, hd₁⟩ := run_idThen_ne_none _ _ m₁
         obtain ⟨d₂, hd₂⟩ := run_idThen_ne_none _ _ m₂
         exact absurd (matchIdRoute_functional _ _ _ _ _ hd₁ hd₂).1 (by decide))

/-- Claim C9 witness: on the concrete path 3/, the detail entry is the entry
that matches, and any two matching entries coincide. -/
theorem routes_disjoint_witness :
    (⟨RoutePat.idThen detailTail, Handler.detail, "detail"⟩ : UrlEntry) =
      ⟨RoutePat.idThen detailTail, Handler.detail, "detail"⟩ :=
  routes_disjoint ['3', '/']
    ⟨RoutePat.idThen detailTail, Handler.detail, "detail"⟩
    ⟨RoutePat.idThen detailTail, Handler.detail, "detail"⟩
    (by decide) (by decide) (by decide) (by decide)

/-- Claim C10: every non-empty digit string, including the single digit 0 and
strings with leading zeros, is accepted by the question_id capture of the
detail, results and vote routes, so such ids reach the handlers instead of
being rejected at the routing layer. -/
theorem digit_ids_routed (d : List Char) (hd : isDigitString d) :
    resolve (d ++ detailTail) = some (Handler.detail, some d) ∧
      resolve (d ++ resultsTail) = some (Handler.results, some d) ∧
      resolve (d ++ voteTail) = some (Handler.vote, some d) :=
  ⟨resolve_detail_of_digits d hd, resolve_results_of_digits d hd,
    resolve_vote_of_digits d hd⟩

/-- Claim C10 witness: the paths 0/ and 007/ are routed to the detail handler
capturing 0 and 007, and 007/vote/ is routed to the vote handler. -/
theorem digit_ids_routed_witness :
    isDigitString ['0'] ∧ isDigitString ['0', '0', '7'] ∧
      resolve (['0'] ++ detailTail) = some (Handler.detail, some ['0']) ∧
      resolve (['0', '0', '7'] ++ detailTail) =
        some (Handler.detail, some ['0', '0', '7']) ∧
      resolve (['0', '0', '7'] ++ voteTail) =
        some (Handler.vote, some ['0', '0', '7']) :=
  ⟨by decide, by decide,
   (digit_ids_routed ['0'] (by decide)).1,
   (digit_ids_routed ['0', '0', '7'] (by decide)).1,
   (digit_ids_routed ['0', '0', '7'] (by decide)).2.2⟩

end Polls
